import Mathlib

/-!
Shallow embedding of the model-registry and queue-strategy core of the
fal-mcp-server repository (src/fal_mcp_server/model_registry.py and
src/fal_mcp_server/queue/), with theorems settling the spec claims.

Python dicts are embedded as insertion-ordered association lists, remote
HTTP calls as explicit outcome parameters (an oracle describing what the
remote service would answer), exceptions as `Except`, and `None` as
`Option.none`.
-/

namespace FalMcp

/-- Python dict lookup `d.get(k)` over an insertion-ordered association list. -/
def dictGet {α : Type} (d : List (String × α)) (k : String) : Option α :=
  match d with
  | [] => none
  | (k', v) :: rest => if k' = k then some v else dictGet rest k

/-- Python dict assignment `d[k] = v`: overwrites in place if the key exists
(keeping its original position, as Python dicts do), otherwise appends. -/
def dictInsert {α : Type} (d : List (String × α)) (k : String) (v : α) :
    List (String × α) :=
  match d with
  | [] => [(k, v)]
  | (k', v') :: rest =>
    if k' = k then (k, v) :: rest else (k', v') :: dictInsert rest k v

/-- Python membership test `k in d` for a dict. -/
def dictMem {α : Type} (d : List (String × α)) (k : String) : Bool :=
  (dictGet d k).isSome

/-- Helper for `pyIn`: does `needle` occur as a contiguous run inside `hay`? -/
def subAux (needle : List Char) : List Char → Bool
  | [] => needle.isEmpty
  | c :: rest => needle.isPrefixOf (c :: rest) || subAux needle rest

/-- Python substring test `needle in hay` on strings. -/
def pyIn (needle hay : String) : Bool :=
  subAux needle.data hay.data

/-- Helper for `pyTitle`: the flag records whether the previous character was
alphabetic (a cased character in Python's sense, for the ASCII inputs used here). -/
def titleAux : Bool → List Char → List Char
  | _, [] => []
  | prevAlpha, c :: rest =>
    (if c.isAlpha then (if prevAlpha then c.toLower else c.toUpper) else c)
      :: titleAux c.isAlpha rest

/-- Python `str.title()`: uppercase every letter that follows a non-letter,
lowercase the rest. -/
def pyTitle (s : String) : String :=
  ⟨titleAux false s.data⟩

/-- Python truthiness of an optional string: `None` and `""` are falsy. -/
def strTruthy : Option String → Option String
  | none => none
  | some s => if s.isEmpty then none else some s

/-- FalModel dataclass (model_registry.py): one record of the remote catalog. -/
structure FalModel where
  id : String
  name : String
  description : String
  category : String
  owner : String := ""
  thumbnail_url : Option String := none
  highlighted : Bool := false
  group_key : Option String := none
  group_label : Option String := none
  status : String := "active"
  tags : Option (List String) := none
  deriving DecidableEq

/-- ModelCache dataclass: the TTL-stamped catalog snapshot. -/
structure ModelCache where
  models : List (String × FalModel)
  aliases : List (String × String)
  by_category : List (String × List String)
  fetched_at : Nat
  ttl_seconds : Nat := 3600
  deriving DecidableEq

/-- SearchResult dataclass: search outcome with fallback annotation. -/
structure SearchResult where
  models : List FalModel
  used_fallback : Bool := false
  fallback_reason : Option String := none
  deriving DecidableEq

/-- The nested `metadata` sub-object of a raw catalog item; every field may be
absent. -/
structure ModelMetadata where
  display_name : Option String := none
  description : Option String := none
  category : Option String := none
  thumbnail_url : Option String := none
  tags : Option (List String) := none
  deriving DecidableEq

/-- The nested `group` sub-object of a raw catalog item. -/
structure ModelGroup where
  key : Option String := none
  label : Option String := none
  deriving DecidableEq

/-- A raw catalog item as returned by the remote `/models` endpoint; every
field may be absent (`raw.get(...)` in the Python source). -/
structure RawModel where
  endpoint_id : Option String := none
  metadata : Option ModelMetadata := none
  group : Option ModelGroup := none
  highlighted : Option Bool := none
  status : Option String := none
  deriving DecidableEq

/-- ModelRegistry.LEGACY_ALIASES: the hard-coded seed alias table. -/
def LEGACY_ALIASES : List (String × String) :=
  [("flux_schnell", "fal-ai/flux/schnell"),
   ("flux_dev", "fal-ai/flux/dev"),
   ("flux_pro", "fal-ai/flux-pro"),
   ("sdxl", "fal-ai/fast-sdxl"),
   ("stable_diffusion", "fal-ai/stable-diffusion-v3-medium"),
   ("svd", "fal-ai/fast-svd-lcm"),
   ("animatediff", "fal-ai/fast-animatediff"),
   ("kling", "fal-ai/kling-video"),
   ("musicgen", "fal-ai/lyria2"),
   ("lyria2", "fal-ai/lyria2"),
   ("stable_audio", "fal-ai/stable-audio-25/text-to-audio"),
   ("bark", "fal-ai/bark"),
   ("whisper", "fal-ai/whisper")]

/-- ModelRegistry.CATEGORY_MAPPING: remote category to simplified category. -/
def CATEGORY_MAPPING : List (String × String) :=
  [("text-to-image", "image"),
   ("image-to-image", "image"),
   ("text-to-video", "video"),
   ("image-to-video", "video"),
   ("video-to-video", "video"),
   ("audio", "audio"),
   ("text-to-audio", "audio"),
   ("speech-to-text", "audio"),
   ("text-to-speech", "audio"),
   ("audio-to-audio", "audio")]

/-- ModelRegistry.LEGACY_ALIAS_CATEGORIES: categories of the seed aliases. -/
def LEGACY_ALIAS_CATEGORIES : List (String × String) :=
  [("flux_schnell", "image"),
   ("flux_dev", "image"),
   ("flux_pro", "image"),
   ("sdxl", "image"),
   ("stable_diffusion", "image"),
   ("svd", "video"),
   ("animatediff", "video"),
   ("kling", "video"),
   ("musicgen", "audio"),
   ("lyria2", "audio"),
   ("stable_audio", "audio"),
   ("bark", "audio"),
   ("whisper", "audio")]

/-- ModelRegistry.DEFAULT_TTL (seconds). -/
def DEFAULT_TTL : Nat := 3600

/-- ModelRegistry.FALLBACK_TTL (seconds), intentionally shorter. -/
def FALLBACK_TTL : Nat := 60

/-- ModelRegistry.is_full_model_id: full ids contain the namespace separator. -/
def is_full_model_id (model_input : String) : Bool :=
  model_input.data.contains '/'

/-- ModelRegistry.resolve_model_id over the current snapshot: full-looking ids
pass through, otherwise the alias map decides; a missed lookup raises
ValueError with the given message. -/
def resolve_model_id (cache : ModelCache) (model_input : String) :
    Except String String :=
  if is_full_model_id model_input then .ok model_input
  else
    match dictGet cache.aliases model_input with
    | some mid => .ok mid
    | none => .error ("Unknown model alias: " ++ model_input)

/-- C1: every input containing the namespace separator is returned unchanged by
`resolve_model_id`, independently of the snapshot (no cache lookup); every
input without the separator that is a key of the snapshot's alias map resolves
to the mapped canonical id; every other input fails with the UnknownAlias
ValueError message. -/
theorem resolve_model_id_spec (cache : ModelCache) (model_input : String) :
    (is_full_model_id model_input = true →
      ∀ cache2 : ModelCache,
        resolve_model_id cache2 model_input = .ok model_input) ∧
    (is_full_model_id model_input = false →
      ∀ mid : String, dictGet cache.aliases model_input = some mid →
        resolve_model_id cache model_input = .ok mid) ∧
    (is_full_model_id model_input = false →
      dictGet cache.aliases model_input = none →
        resolve_model_id cache model_input =
          .error ("Unknown model alias: " ++ model_input)) := by
  refine ⟨?_, ?_, ?_⟩
  · intro h cache2
    simp [resolve_model_id, h]
  · intro h mid hm
    simp [resolve_model_id, h, hm]
  · intro h hm
    simp [resolve_model_id, h, hm]

/-- Concrete witness for C1: with the seed aliases as snapshot, the alias
"flux_schnell" resolves to its canonical id, a canonical id passes through,
and an unknown alias raises. -/
theorem resolve_model_id_spec_witness :
    resolve_model_id
        { models := [], aliases := LEGACY_ALIASES, by_category := [],
          fetched_at := 0 } "flux_schnell" = .ok "fal-ai/flux/schnell" ∧
    resolve_model_id
        { models := [], aliases := LEGACY_ALIASES, by_category := [],
          fetched_at := 0 } "fal-ai/flux/dev" = .ok "fal-ai/flux/dev" ∧
    resolve_model_id
        { models := [], aliases := LEGACY_ALIASES, by_category := [],
          fetched_at := 0 } "not_a_model" =
      .error ("Unknown model alias: not_a_model") :=
  ⟨(resolve_model_id_spec _ "flux_schnell").2.1 (by decide) _ (by decide),
   (resolve_model_id_spec
      { models := [], aliases := LEGACY_ALIASES, by_category := [],
        fetched_at := 0 } "fal-ai/flux/dev").1 (by decide) _,
   (resolve_model_id_spec _ "not_a_model").2.2 (by decide) (by decide)⟩

/-- Python `str.replace` for a single-character pattern (the only form the
source uses). -/
def replaceChar (s : String) (c₀ c₁ : Char) : String :=
  ⟨s.data.map (fun c => if c = c₀ then c₁ else c)⟩

/-- Python `str.lower()`. -/
def pyLower (s : String) : String :=
  ⟨s.data.map Char.toLower⟩

/-- ModelRegistry._generate_alias: strip the "fal-ai/" root-owner prefix and
substitute both separators with underscores; no alias for other owners. -/
def _generate_alias (model_id : String) : Option String :=
  if "fal-ai/".data.isPrefixOf model_id.data then
    some (replaceChar (replaceChar ⟨model_id.data.drop 7⟩ '/' '_') '-' '_')
  else none

/-- Normalization of one raw catalog item into a FalModel, exactly as the loop
body of ModelRegistry._refresh_cache (and, identically, the success path of
search_models) builds it: an item whose endpoint_id is absent or empty yields
none (the Python loops `continue`); display fields are pulled from the nested
metadata defensively; owner is the prefix of the id before the first '/'
(empty when there is no '/'). -/
def normalizeRaw (raw : RawModel) : Option FalModel :=
  let model_id := raw.endpoint_id.getD ""
  if model_id.isEmpty then none
  else
    let metadata := raw.metadata.getD {}
    let owner :=
      if is_full_model_id model_id then
        (⟨model_id.data.takeWhile (fun c => c ≠ '/')⟩ : String)
      else ""
    some
      { id := model_id
        name := metadata.display_name.getD model_id
        description := metadata.description.getD ""
        category := metadata.category.getD ""
        owner := owner
        thumbnail_url := metadata.thumbnail_url
        highlighted := raw.highlighted.getD false
        group_key := raw.group.bind ModelGroup.key
        group_label := raw.group.bind ModelGroup.label
        status := raw.status.getD "active"
        tags := metadata.tags }

/-- The per-item accumulator update of ModelRegistry._refresh_cache: record the
model (dict assignment), index its mapped category when that category is one of
the prepared buckets, and register the auto-generated alias unless it is empty
or collides with an existing alias (first registered wins). -/
def refreshAccum
    (acc : List (String × FalModel) × List (String × String) ×
      List (String × List String))
    (raw : RawModel) :
    List (String × FalModel) × List (String × String) ×
      List (String × List String) :=
  match normalizeRaw raw with
  | none => acc
  | some model =>
    let (models, aliases, by_category) := acc
    let models := dictInsert models model.id model
    let by_category :=
      match dictGet CATEGORY_MAPPING model.category with
      | some oc =>
        match dictGet by_category oc with
        | some l => dictInsert by_category oc (l ++ [model.id])
        | none => by_category
      | none => by_category
    let aliases :=
      match _generate_alias model.id with
      | some a =>
        if a.isEmpty || dictMem aliases a then aliases
        else dictInsert aliases a model.id
      | none => aliases
    (models, aliases, by_category)

/-- ModelRegistry._refresh_cache applied to the raw items the paginated fetch
returned: aliases start from the legacy seed table, categories from the three
empty buckets. -/
def _refresh_cache (raw_models : List RawModel) (now ttl_seconds : Nat) :
    ModelCache :=
  let st := raw_models.foldl refreshAccum
    ([], LEGACY_ALIASES, [("image", []), ("video", []), ("audio", [])])
  { models := st.1, aliases := st.2.1, by_category := st.2.2,
    fetched_at := now, ttl_seconds := ttl_seconds }

/-- The per-alias body of ModelRegistry._create_fallback_cache: skip duplicate
canonical ids, look up the category (defaulting to "image"), and synthesize a
FalModel from the alias text. -/
def fallbackAccum
    (acc : List (String × FalModel) × List (String × List String))
    (entry : String × String) :
    List (String × FalModel) × List (String × List String) :=
  let (models, by_category) := acc
  let aliasName := entry.1
  let model_id := entry.2
  if dictMem models model_id then acc
  else
    let category := (dictGet LEGACY_ALIAS_CATEGORIES aliasName).getD "image"
    let model : FalModel :=
      { id := model_id
        name := pyTitle (replaceChar aliasName '_' ' ')
        description := "Fal.ai " ++ category ++ " model (" ++ model_id ++ ")"
        category := category
        owner := "fal-ai" }
    let models := dictInsert models model_id model
    let by_category :=
      match dictGet by_category category with
      | some l => dictInsert by_category category (l ++ [model_id])
      | none => by_category
    (models, by_category)

/-- ModelRegistry._create_fallback_cache: the snapshot synthesized from the
legacy seed alias table, stamped with the shorter fallback ttl. -/
def _create_fallback_cache (now : Nat) : ModelCache :=
  let st := LEGACY_ALIASES.foldl fallbackAccum
    ([], [("image", []), ("video", []), ("audio", [])])
  { models := st.1, aliases := LEGACY_ALIASES, by_category := st.2,
    fetched_at := now, ttl_seconds := FALLBACK_TTL }

/-- Outcome of one attempted remote catalog fetch, mirroring the exception
cases get_cache distinguishes. -/
inductive FetchOutcome
  | ok (raw_models : List RawModel)
  | httpStatusError (code : Nat)
  | timeoutException
  | connectError
  | otherException
  deriving DecidableEq

/-- All constructors but `ok` represent a raised exception. -/
def FetchOutcome.isFailure : FetchOutcome → Bool
  | .ok _ => false
  | _ => true

/-- ModelRegistry.get_cache as one state transition: given the prior `_cache`
field, the current time and the outcome of the (single-flight) refresh
attempt, produce the snapshot the call returns. A still-valid cache is served
without fetching; a failed refresh serves the stale cache when one exists and
otherwise the fallback cache (_handle_cache_refresh_failure). -/
def get_cache (prev : Option ModelCache) (now ttl_seconds : Nat)
    (fetch : FetchOutcome) : ModelCache :=
  match prev with
  | some c =>
    if now - c.fetched_at < c.ttl_seconds then c
    else
      match fetch with
      | .ok raws => _refresh_cache raws now ttl_seconds
      | _ => c
  | none =>
    match fetch with
    | .ok raws => _refresh_cache raws now ttl_seconds
    | _ => _create_fallback_cache now

/-- C2: get_cache yields a snapshot for every refresh outcome (success or any
of the caught exception classes — the transition is total), and when the fetch
fails with no prior snapshot it returns the fallback cache built from the
legacy seed aliases: a non-empty snapshot whose ttl is 60 seconds, strictly
less than the normal 3600-second ttl. -/
theorem get_cache_spec (now ttl_seconds : Nat) (fetch : FetchOutcome) :
    (∀ prev : Option ModelCache,
      ∃ c : ModelCache, get_cache prev now ttl_seconds fetch = c) ∧
    (fetch.isFailure = true →
      get_cache none now ttl_seconds fetch = _create_fallback_cache now ∧
      0 < (_create_fallback_cache now).models.length ∧
      (_create_fallback_cache now).aliases = LEGACY_ALIASES ∧
      (_create_fallback_cache now).ttl_seconds = FALLBACK_TTL ∧
      FALLBACK_TTL < DEFAULT_TTL) := by
  constructor
  · intro prev
    exact ⟨_, rfl⟩
  · intro hfail
    refine ⟨?_, ?_, rfl, rfl, by decide⟩
    · cases fetch with
      | ok raws => simp [FetchOutcome.isFailure] at hfail
      | httpStatusError code => rfl
      | timeoutException => rfl
      | connectError => rfl
      | otherException => rfl
    · have h12 : (_create_fallback_cache now).models.length = 12 := rfl
      rw [h12]
      decide

/-- Concrete witness for C2: a connection error with no prior snapshot yields
the fallback cache, observed at time 0. -/
theorem get_cache_spec_witness :
    get_cache none 0 DEFAULT_TTL .connectError = _create_fallback_cache 0 ∧
    0 < (_create_fallback_cache 0).models.length :=
  ⟨((get_cache_spec 0 DEFAULT_TTL .connectError).2 (by decide)).1,
   ((get_cache_spec 0 DEFAULT_TTL .connectError).2 (by decide)).2.1⟩

/-- C8 counterexample: a raw item whose endpoint_id is entirely absent is
silently absorbed by the refresh loop — normalization yields no record and no
error, and refreshing with that item produces exactly the cache obtained from
no items at all — contradicting the claim that records with no id are a
propagated error rather than silently absorbed. -/
theorem refresh_missing_id_counterexample :
    normalizeRaw
        { endpoint_id := none,
          metadata := some { display_name := some "Mystery Model" } } = none ∧
    _refresh_cache
        [{ endpoint_id := none,
           metadata := some { display_name := some "Mystery Model" } }] 0 3600 =
      _refresh_cache [] 0 3600 := by
  exact ⟨rfl, rfl⟩

/-- C8 amended: malformed records are defended with safe defaults — a record
carrying only a (non-empty) id normalizes with the id as display name, empty
description and category, no thumbnail, not highlighted, active status and no
tags, with owner the prefix of the id before the first '/' (empty when there
is no separator) — and a record whose id is entirely absent is silently
skipped by the refresh loop: no error is ever propagated (normalization and
refresh are total). -/
theorem refresh_cache_malformed_spec (raw : RawModel) (rest : List RawModel)
    (now ttl : Nat) (mid : String) :
    (raw.endpoint_id = none →
      _refresh_cache (raw :: rest) now ttl = _refresh_cache rest now ttl) ∧
    (mid.isEmpty = false →
      normalizeRaw { endpoint_id := some mid } =
        some { id := mid, name := mid, description := "", category := "",
               owner :=
                 if is_full_model_id mid then
                   (⟨mid.data.takeWhile (fun c => c ≠ '/')⟩ : String)
                 else "" }) := by
  constructor
  · intro h
    have hn : normalizeRaw raw = none := by
      simp [normalizeRaw, h]
      decide
    simp [_refresh_cache, refreshAccum, hn]
  · intro h
    simp [normalizeRaw, h]

/-- Concrete witness for the amended C8: an id-less record leaves the refresh
outcome untouched, and a record with a namespaced id and no metadata gets the
defensive defaults with owner "stabilityai". -/
theorem refresh_cache_malformed_spec_witness :
    _refresh_cache [{ endpoint_id := none }] 5 3600 =
        _refresh_cache [] 5 3600 ∧
    normalizeRaw { endpoint_id := some "stabilityai/sdxl" } =
      some { id := "stabilityai/sdxl", name := "stabilityai/sdxl",
             description := "", category := "", owner := "stabilityai" } :=
  ⟨(refresh_cache_malformed_spec { endpoint_id := none } [] 5 3600 "x").1 rfl,
   ((refresh_cache_malformed_spec { endpoint_id := none } [] 5 3600
      "stabilityai/sdxl").2 (by decide)).trans (by decide)⟩

/-- One page of the paginated remote catalog listing, carrying the fields
_fetch_all_models reads; each may be absent. -/
structure CatalogPage where
  models : Option (List RawModel) := none
  next_cursor : Option String := none
  has_more : Option Bool := none
  deriving DecidableEq

/-- The loop of ModelRegistry._fetch_all_models, driven by the sequence of
pages the remote endpoint answers successive requests with (one list entry
per request, in order): accumulate each page's items, then stop when the
page's cursor is absent or empty (Python falsiness) or its has_more is not
true; otherwise request the next page. Returns the accumulated items and the
number of page requests issued; an exhausted page sequence (never reached in
the claims) contributes nothing further. -/
def fetchAllAux (pages : List CatalogPage) (acc : List RawModel) (n : Nat) :
    List RawModel × Nat :=
  match pages with
  | [] => (acc, n)
  | page :: rest =>
    let acc := acc ++ page.models.getD []
    let cursor := strTruthy page.next_cursor
    if cursor.isNone || !(page.has_more.getD false) then (acc, n + 1)
    else fetchAllAux rest acc (n + 1)

/-- ModelRegistry._fetch_all_models: run the pagination loop from an empty
accumulator. -/
def _fetch_all_models (pages : List CatalogPage) : List RawModel × Nat :=
  fetchAllAux pages [] 0

/-- C3: at any point of the pagination loop, a page whose has_more is not true
(even with a cursor still present) or whose cursor is absent stops the loop
with exactly one further request; and on the two-page run where page 1 has
has_more=true with cursor "c1" and page 2 has has_more=false, exactly two
requests are issued and the items of both pages are concatenated in order. -/
theorem fetch_all_models_spec (page : CatalogPage) (rest : List CatalogPage)
    (items1 items2 : List RawModel) :
    (page.has_more.getD false = false ∨ strTruthy page.next_cursor = none →
      ∀ (acc : List RawModel) (n : Nat),
        fetchAllAux (page :: rest) acc n = (acc ++ page.models.getD [], n + 1)) ∧
    (_fetch_all_models
        [{ models := some items1, next_cursor := some "c1",
           has_more := some true },
         { models := some items2, has_more := some false }] =
      (items1 ++ items2, 2)) := by
  constructor
  · intro h acc n
    rcases h with h | h <;> simp [fetchAllAux, h]
  · rfl

/-- Concrete witness for C3: a single page with has_more=false but a cursor
still present stops after one request. -/
theorem fetch_all_models_spec_witness :
    fetchAllAux
        [{ models := some [{ endpoint_id := some "fal-ai/bark" }],
           next_cursor := some "c9", has_more := some false }] [] 0 =
      ([{ endpoint_id := some "fal-ai/bark" }], 1) :=
  (fetch_all_models_spec
      { models := some [{ endpoint_id := some "fal-ai/bark" }],
        next_cursor := some "c9", has_more := some false } [] [] []).1
    (Or.inl (by decide)) [] 0

/-- A JSON-object result payload, standing for the dictionaries the queue
strategies return; the empty list is Python's falsy empty dict. -/
abbrev Payload := List (String × String)

/-- Python `dict(result) if result else None` (the execute bodies): a falsy
result — None or an empty mapping — becomes None. -/
def dictOrNone (result : Option Payload) : Option Payload :=
  match result with
  | none => none
  | some p => if p.isEmpty then none else some p

/-- Python `dict(result) if result else {}` (the execute_fast bodies): a falsy
result becomes the empty dict. -/
def dictOrEmpty (result : Option Payload) : Payload :=
  match result with
  | none => []
  | some p => p

/-- Behavior of the awaited remote job under the caller's timeout: it
completes in time with a result (possibly None or empty), the timeout fires
first, or some other exception is raised. -/
inductive JobBehavior
  | completes (result : Option Payload)
  | timesOut
  | raises (msg : String)
  deriving DecidableEq

/-- Exceptions an execute call can propagate. -/
inductive ExecErr
  | timeoutError
  | exc (msg : String)
  deriving DecidableEq

/-- SubscribeStrategy.execute: a single subscribe_async await raced against
the timeout by asyncio.wait_for; on firing the TimeoutError is re-raised, any
other exception propagates too, and a completed result is coerced with
`dict(result) if result else None`. The oracle describes what the remote call
does for the given model id, arguments and timeout. -/
def SubscribeStrategy.execute
    (oracle : String → Payload → Nat → JobBehavior)
    (model_id : String) (arguments : Payload) (timeout : Nat) :
    Except ExecErr (Option Payload) :=
  match oracle model_id arguments timeout with
  | .completes result => .ok (dictOrNone result)
  | .timesOut => .error .timeoutError
  | .raises msg => .error (.exc msg)

/-- HandleGetStrategy.execute: submit_async then handle.get() bounded by
asyncio.wait_for; a TimeoutError is caught and the None sentinel is returned
instead; other exceptions propagate; a completed result is coerced with
`dict(result) if result else None`. -/
def HandleGetStrategy.execute
    (oracle : String → Payload → Nat → JobBehavior)
    (model_id : String) (arguments : Payload) (timeout : Nat) :
    Except ExecErr (Option Payload) :=
  match oracle model_id arguments timeout with
  | .completes result => .ok (dictOrNone result)
  | .timesOut => .ok none
  | .raises msg => .error (.exc msg)

/-- C4: for every model id, arguments and timeout, when the awaited job hits
the timeout the subscribe strategy propagates the raised TimeoutError while
the blocking-get strategy returns the None sentinel — observably different
outcomes — and when the job completes both strategies return the identically
coerced result payload. -/
theorem timeout_behavior_spec
    (oracle : String → Payload → Nat → JobBehavior)
    (model_id : String) (arguments : Payload) (timeout : Nat) :
    (oracle model_id arguments timeout = .timesOut →
      SubscribeStrategy.execute oracle model_id arguments timeout =
          .error .timeoutError ∧
      HandleGetStrategy.execute oracle model_id arguments timeout = .ok none ∧
      SubscribeStrategy.execute oracle model_id arguments timeout ≠
        HandleGetStrategy.execute oracle model_id arguments timeout) ∧
    (∀ result : Option Payload,
      oracle model_id arguments timeout = .completes result →
        SubscribeStrategy.execute oracle model_id arguments timeout =
            .ok (dictOrNone result) ∧
        HandleGetStrategy.execute oracle model_id arguments timeout =
          .ok (dictOrNone result)) := by
  constructor
  · intro h
    refine ⟨?_, ?_, ?_⟩ <;>
      simp [SubscribeStrategy.execute, HandleGetStrategy.execute, h]
  · intro result h
    constructor <;>
      simp [SubscribeStrategy.execute, HandleGetStrategy.execute, h]

/-- Concrete witness for C4: under an always-timing-out job the subscribe
strategy raises and the blocking-get strategy returns None; under a completed
job both return the same payload. -/
theorem timeout_behavior_spec_witness :
    SubscribeStrategy.execute (fun _ _ _ => .timesOut)
        "fal-ai/flux/dev" [] 300 = .error .timeoutError ∧
    HandleGetStrategy.execute (fun _ _ _ => .timesOut)
        "fal-ai/flux/dev" [] 300 = .ok none ∧
    SubscribeStrategy.execute
        (fun _ _ _ => .completes (some [("video_url", "v.mp4")]))
        "fal-ai/kling-video" [("prompt", "a cat")] 600 =
      .ok (some [("video_url", "v.mp4")]) :=
  ⟨((timeout_behavior_spec (fun _ _ _ => .timesOut)
      "fal-ai/flux/dev" [] 300).1 rfl).1,
   ((timeout_behavior_spec (fun _ _ _ => .timesOut)
      "fal-ai/flux/dev" [] 300).1 rfl).2.1,
   (((timeout_behavior_spec
        (fun _ _ _ => .completes (some [("video_url", "v.mp4")]))
        "fal-ai/kling-video" [("prompt", "a cat")] 600).2
      (some [("video_url", "v.mp4")]) rfl).1).trans rfl⟩

/-- SubscribeStrategy.execute_fast: one direct run_async call whose result is
coerced with `dict(result) if result else {}`; exceptions propagate. The
oracle gives the remote outcome for the given model id and arguments. -/
def SubscribeStrategy.execute_fast
    (oracle : String → Payload → Except String (Option Payload))
    (model_id : String) (arguments : Payload) : Except String Payload :=
  match oracle model_id arguments with
  | .ok result => .ok (dictOrEmpty result)
  | .error msg => .error msg

/-- PollingStrategy.execute_fast: textually the same body as the subscribe
variant in the source. -/
def PollingStrategy.execute_fast
    (oracle : String → Payload → Except String (Option Payload))
    (model_id : String) (arguments : Payload) : Except String Payload :=
  match oracle model_id arguments with
  | .ok result => .ok (dictOrEmpty result)
  | .error msg => .error msg

/-- HandleGetStrategy.execute_fast: textually the same body as the other two
variants in the source. -/
def HandleGetStrategy.execute_fast
    (oracle : String → Payload → Except String (Option Payload))
    (model_id : String) (arguments : Payload) : Except String Payload :=
  match oracle model_id arguments with
  | .ok result => .ok (dictOrEmpty result)
  | .error msg => .error msg

/-- C9: for every remote behavior, model id and arguments the three
execute_fast implementations agree exactly; a successful call returns the
result coerced to a dict with falsy results mapped to the empty dict — the
success value is a plain dict, never the None/timeout sentinel. -/
theorem execute_fast_spec
    (oracle : String → Payload → Except String (Option Payload))
    (model_id : String) (arguments : Payload) :
    SubscribeStrategy.execute_fast oracle model_id arguments =
        PollingStrategy.execute_fast oracle model_id arguments ∧
    PollingStrategy.execute_fast oracle model_id arguments =
        HandleGetStrategy.execute_fast oracle model_id arguments ∧
    (∀ result : Option Payload, oracle model_id arguments = .ok result →
      SubscribeStrategy.execute_fast oracle model_id arguments =
        .ok (dictOrEmpty result)) ∧
    dictOrEmpty none = [] ∧ dictOrEmpty (some []) = [] := by
  refine ⟨rfl, rfl, ?_, rfl, rfl⟩
  intro result h
  simp [SubscribeStrategy.execute_fast, h]

/-- Concrete witness for C9: a remote call answering None makes all three
strategies return the empty dict. -/
theorem execute_fast_spec_witness :
    SubscribeStrategy.execute_fast (fun _ _ => .ok none)
        "fal-ai/whisper" [("audio_url", "a.mp3")] = .ok [] :=
  (execute_fast_spec (fun _ _ => .ok none)
      "fal-ai/whisper" [("audio_url", "a.mp3")]).2.2.1 none rfl

/-- The default poll_interval of PollingStrategy (seconds). -/
def defaultPollInterval : Nat := 2

/-- The polling loop of PollingStrategy.execute after the single submit:
before every status query the elapsed time is checked against the timeout
(returning the None sentinel on expiry); the status text, lowercased, is
decoded by substring — "completed"/"done" is terminal success (the get_async
result coerced with `dict(result) if result else None`), "failed"/"error" is
a structured error dict, anything else loops after sleeping poll_interval.
`statuses` is the sequence of str(status) values successive status_async
calls yield and `final` the get_async result; elapsed time advances by
poll_interval per sleep, and the second component counts the sleeps
performed. An exhausted status sequence (never reached in the claims) yields
the sentinel. -/
def pollLoop (poll_interval timeout : Nat) (final : Option Payload)
    (statuses : List String) (elapsed sleeps : Nat) : Option Payload × Nat :=
  if elapsed ≥ timeout then (none, sleeps)
  else
    match statuses with
    | [] => (none, sleeps)
    | status :: rest =>
      let status_str := pyLower status
      if pyIn "completed" status_str || pyIn "done" status_str then
        (dictOrNone final, sleeps)
      else if pyIn "failed" status_str || pyIn "error" status_str then
        (some [("error", "Job failed: " ++ status)], sleeps)
      else
        pollLoop poll_interval timeout final rest (elapsed + poll_interval)
          (sleeps + 1)

/-- PollingStrategy.execute: submit_async once, then poll from elapsed time
zero. -/
def PollingStrategy.execute (poll_interval : Nat) (statuses : List String)
    (final : Option Payload) (timeout : Nat) : Option Payload × Nat :=
  pollLoop poll_interval timeout final statuses 0 0

/-- C5: the poll loop checks elapsed time against the timeout before each
status query and returns the None sentinel on expiry; a status containing
"completed" or "done" (case-insensitively) is terminal success, one containing
"failed" or "error" is a structured error dict, and any other status sleeps
one fixed interval and loops; with the default 2s interval, the sequence
running, running, completed under timeout 10 returns the completed payload
after exactly 2 sleeps, and the same sequence under timeout 1 returns the None
sentinel (no exception) after 1 sleep, cut off by the elapsed-time check. -/
theorem polling_execute_spec (poll_interval timeout : Nat)
    (final : Option Payload) (status : String) (rest : List String)
    (elapsed sleeps : Nat) :
    (elapsed ≥ timeout →
      pollLoop poll_interval timeout final (status :: rest) elapsed sleeps =
        (none, sleeps)) ∧
    (elapsed < timeout →
      (pyIn "completed" (pyLower status) || pyIn "done" (pyLower status))
          = true →
      pollLoop poll_interval timeout final (status :: rest) elapsed sleeps =
        (dictOrNone final, sleeps)) ∧
    (elapsed < timeout →
      (pyIn "completed" (pyLower status) || pyIn "done" (pyLower status))
          = false →
      (pyIn "failed" (pyLower status) || pyIn "error" (pyLower status))
          = true →
      pollLoop poll_interval timeout final (status :: rest) elapsed sleeps =
        (some [("error", "Job failed: " ++ status)], sleeps)) ∧
    (elapsed < timeout →
      (pyIn "completed" (pyLower status) || pyIn "done" (pyLower status))
          = false →
      (pyIn "failed" (pyLower status) || pyIn "error" (pyLower status))
          = false →
      pollLoop poll_interval timeout final (status :: rest) elapsed sleeps =
        pollLoop poll_interval timeout final rest (elapsed + poll_interval)
          (sleeps + 1)) ∧
    (PollingStrategy.execute defaultPollInterval
        ["InProgress", "InProgress", "Completed"] final 10 =
      (dictOrNone final, 2)) ∧
    (PollingStrategy.execute defaultPollInterval
        ["InProgress", "InProgress", "Completed"] final 1 = (none, 1)) := by
  refine ⟨?_, ?_, ?_, ?_, ?_, ?_⟩
  · intro h
    rw [pollLoop, if_pos h]
  · intro h hdec
    rw [pollLoop, if_neg (by omega)]
    simp only [hdec, if_pos]
  · intro h hdec hfail
    rw [pollLoop, if_neg (by omega)]
    simp only [hdec, hfail]
    rfl
  · intro h hdec hfail
    rw [pollLoop, if_neg (by omega)]
    simp only [hdec, hfail]
    rfl
  · rfl
  · rfl

/-- Concrete witness for C5: a failed status while time remains yields the
structured error dict. -/
theorem polling_execute_spec_witness :
    pollLoop 2 10 (some [("ok", "1")]) ["Failed()"] 0 0 =
      (some [("error", "Job failed: Failed()")], 0) :=
  (polling_execute_spec 2 10 (some [("ok", "1")]) "Failed()" [] 0 0).2.2.1
    (by decide) (by decide) (by decide)

/-- ModelRegistry.list_models over a snapshot: optional category filter
through the by_category index (keeping only ids present in the model map),
optional case-insensitive substring filter over name, description and id,
then truncation to limit. Empty-string arguments are falsy in Python and
disable the corresponding step. -/
def list_models (cache : ModelCache) (category search : Option String)
    (limit : Nat) : List FalModel :=
  let models :=
    match strTruthy category with
    | some c =>
      ((dictGet cache.by_category c).getD []).filterMap
        (fun mid => dictGet cache.models mid)
    | none => cache.models.map Prod.snd
  let models :=
    match strTruthy search with
    | some s =>
      let search_lower := pyLower s
      models.filter (fun (m : FalModel) =>
        pyIn search_lower (pyLower m.name) ||
        pyIn search_lower (pyLower m.description) ||
        pyIn search_lower (pyLower m.id))
    | none => models
  models.take limit

/-- The exception classes search_models catches around the remote query. -/
inductive SearchErr
  | httpStatusError (code : Nat)
  | timeoutException
  | connectError
  | otherException
  deriving DecidableEq

/-- The categorized fallback reason string search_models records for each
caught exception class. -/
def fallbackReasonFor : SearchErr → String
  | .httpStatusError code => "API error (HTTP " ++ toString code ++ ")"
  | .timeoutException => "API timeout"
  | .connectError => "Connection error"
  | .otherException => "Unexpected error"

/-- ModelRegistry._map_to_simple_category. -/
def _map_to_simple_category (api_category : String) : Option String :=
  dictGet CATEGORY_MAPPING api_category

/-- Stable insertion of x into an already sorted list: x is placed after
every element it does not strictly precede, matching the stability of
Python's list.sort. -/
def insertSorted {α : Type} (le : α → α → Bool) (x : α) :
    List α → List α
  | [] => [x]
  | y :: ys =>
    if le x y && !(le y x) then x :: y :: ys else y :: insertSorted le x ys

/-- Python's stable `list.sort` under a total-preorder comparison: processing
the list left to right and inserting stably yields the unique stable sort,
which is what list.sort produces for the same key order. -/
def pySortBy {α : Type} (le : α → α → Bool) (l : List α) : List α :=
  l.foldl (fun acc x => insertSorted le x acc) []

/-- The comparison induced by search_models' sort key
`(not m.highlighted, m.name.lower())` under Python tuple ordering: highlighted
models sort first, ties are broken by lowercased name. -/
def searchLe (a b : FalModel) : Bool :=
  (a.highlighted && !b.highlighted) ||
    (a.highlighted == b.highlighted &&
      decide (pyLower a.name ≤ pyLower b.name))

/-- ModelRegistry.search_models: ask the remote semantic search with the
query; on any of the four caught exception classes fall back to the local
substring filter over the snapshot (with the category mapped to the
simplified system) and record the categorized reason; on success normalize
the returned items exactly as the refresh loop does, sort highlighted-first
with name tiebreak, and truncate to limit. -/
def search_models (cache : ModelCache)
    (remote : Except SearchErr (List RawModel))
    (query : String) (category : Option String) (limit : Nat) : SearchResult :=
  match remote with
  | .error e =>
    let fallback_models := list_models cache
      ((strTruthy category).bind _map_to_simple_category) (some query) limit
    { models := fallback_models, used_fallback := true,
      fallback_reason := some (fallbackReasonFor e) }
  | .ok raw_models =>
    let models := raw_models.filterMap normalizeRaw
    let sorted := pySortBy searchLe models
    { models := sorted.take limit, used_fallback := false,
      fallback_reason := none }

/-- C6: whenever the remote search raises any of the caught exception classes,
search_models answers from the local case-insensitive substring filter over
the snapshot (name, description and id) with used_fallback true and a
fallback reason that is exactly the categorized string for that class — one
of "API error (HTTP <code>)", "API timeout", "Connection error", "Unexpected
error" — and on remote success used_fallback is false with no reason. -/
theorem search_models_fallback_spec (cache : ModelCache) (query : String)
    (category : Option String) (limit : Nat) (e : SearchErr) :
    (search_models cache (.error e) query category limit).used_fallback
        = true ∧
    (search_models cache (.error e) query category limit).fallback_reason
        = some (fallbackReasonFor e) ∧
    ((∃ code : Nat,
        fallbackReasonFor e = "API error (HTTP " ++ toString code ++ ")") ∨
      fallbackReasonFor e = "API timeout" ∨
      fallbackReasonFor e = "Connection error" ∨
      fallbackReasonFor e = "Unexpected error") ∧
    (search_models cache (.error e) query category limit).models =
      list_models cache ((strTruthy category).bind _map_to_simple_category)
        (some query) limit ∧
    (∀ raw_models : List RawModel,
      (search_models cache (.ok raw_models) query category limit).used_fallback
          = false ∧
      (search_models cache (.ok raw_models) query category limit).fallback_reason
          = none) := by
  refine ⟨rfl, rfl, ?_, rfl, fun raw_models => ⟨rfl, rfl⟩⟩
  cases e with
  | httpStatusError code => exact Or.inl ⟨code, rfl⟩
  | timeoutException => exact Or.inr (Or.inl rfl)
  | connectError => exact Or.inr (Or.inr (Or.inl rfl))
  | otherException => exact Or.inr (Or.inr (Or.inr rfl))

theorem mem_insertSorted {α : Type} (le : α → α → Bool) (x : α)
    (l : List α) (z : α) :
    z ∈ insertSorted le x l ↔ z = x ∨ z ∈ l := by
  induction l with
  | nil => simp [insertSorted]
  | cons y ys ih =>
    by_cases h : (le x y && !(le y x)) = true
    · simp only [insertSorted, if_pos h]
      simp [List.mem_cons]
      try tauto
    · simp only [insertSorted, if_neg h]
      simp [List.mem_cons, ih]
      tauto

theorem pairwise_insertSorted {α : Type} (le : α → α → Bool)
    (htot : ∀ a b, le a b = true ∨ le b a = true)
    (htrans : ∀ a b c, le a b = true → le b c = true → le a c = true)
    (x : α) (l : List α) (h : l.Pairwise (fun a b => le a b = true)) :
    (insertSorted le x l).Pairwise (fun a b => le a b = true) := by
  induction l with
  | nil => simp [insertSorted]
  | cons y ys ih =>
    rcases List.pairwise_cons.mp h with ⟨hy, hys⟩
    by_cases hc : (le x y && !(le y x)) = true
    · rw [insertSorted, if_pos hc]
      have hxy : le x y = true := (Bool.and_eq_true_iff.mp hc).1
      refine List.pairwise_cons.mpr ⟨?_, h⟩
      intro z hz
      rcases List.mem_cons.mp hz with rfl | hz
      · exact hxy
      · exact htrans x y z hxy (hy z hz)
    · rw [insertSorted, if_neg hc]
      have hyx : le y x = true := by
        cases hxy : le x y with
        | false =>
          rcases htot x y with h1 | h1
          · rw [hxy] at h1
            exact absurd h1 (by simp)
          · exact h1
        | true =>
          cases hyx2 : le y x with
          | true => rfl
          | false =>
            exact absurd (by rw [hxy, hyx2]; rfl) hc
      refine List.pairwise_cons.mpr ⟨?_, ih hys⟩
      intro z hz
      rcases (mem_insertSorted le x ys z).mp hz with rfl | hz
      · exact hyx
      · exact hy z hz

theorem pairwise_pySortBy {α : Type} (le : α → α → Bool)
    (htot : ∀ a b, le a b = true ∨ le b a = true)
    (htrans : ∀ a b c, le a b = true → le b c = true → le a c = true)
    (l : List α) :
    (pySortBy le l).Pairwise (fun a b => le a b = true) := by
  suffices h : ∀ acc : List α, acc.Pairwise (fun a b => le a b = true) →
      (l.foldl (fun acc x => insertSorted le x acc) acc).Pairwise
        (fun a b => le a b = true) from h [] (by simp)
  induction l with
  | nil =>
    intro acc hacc
    simpa using hacc
  | cons x xs ih =>
    intro acc hacc
    simp only [List.foldl_cons]
    exact ih _ (pairwise_insertSorted le htot htrans x acc hacc)

theorem searchLe_total (a b : FalModel) :
    searchLe a b = true ∨ searchLe b a = true := by
  cases ha : a.highlighted <;> cases hb : b.highlighted <;>
    simp [searchLe, ha, hb] <;> exact le_total _ _

theorem searchLe_trans (a b c : FalModel) (hab : searchLe a b = true)
    (hbc : searchLe b c = true) : searchLe a c = true := by
  cases ha : a.highlighted <;> cases hb : b.highlighted <;>
    cases hc : c.highlighted <;>
    simp [searchLe, ha, hb, hc] at * <;>
    exact le_trans hab hbc

/-- C7: on a successful remote search, the models search_models returns are
pairwise ordered with highlighted models strictly before non-highlighted ones
and ties (equal highlighted flags) broken by case-insensitive name, and at
most the caller-supplied limit of models is returned. -/
theorem search_models_success_sorted (cache : ModelCache)
    (raw_models : List RawModel) (query : String) (category : Option String)
    (limit : Nat) :
    (search_models cache (.ok raw_models) query category limit).models.Pairwise
        (fun a b => (a.highlighted = true ∧ b.highlighted = false) ∨
          (a.highlighted = b.highlighted ∧
            pyLower a.name ≤ pyLower b.name)) ∧
    (search_models cache (.ok raw_models) query category limit).models.length
        ≤ limit := by
  have hmodels :
      (search_models cache (.ok raw_models) query category limit).models =
        (pySortBy searchLe (raw_models.filterMap normalizeRaw)).take limit :=
    rfl
  constructor
  · rw [hmodels]
    have hp := pairwise_pySortBy searchLe searchLe_total searchLe_trans
      (raw_models.filterMap normalizeRaw)
    have himp : ∀ a b : FalModel, searchLe a b = true →
        (a.highlighted = true ∧ b.highlighted = false) ∨
          (a.highlighted = b.highlighted ∧
            pyLower a.name ≤ pyLower b.name) := by
      intro a b hab
      cases ha : a.highlighted <;> cases hb : b.highlighted <;>
        simp [searchLe, ha, hb] at hab ⊢ <;> exact hab
    exact List.Pairwise.sublist (List.take_sublist _ _)
      (hp.imp (fun {a b} h => himp a b h))
  · rw [hmodels]
    exact List.length_take_le _ _

/-- A minimal JSON value, enough to express the literal pricing payloads and
the verbatim pass-through of the remote response body. -/
inductive Json
  | null
  | bool (b : Bool)
  | num (n : Int)
  | str (s : String)
  | arr (elems : List Json)
  | obj (fields : List (String × Json))

/-- ModelRegistry.get_pricing: an empty endpoint id list short-circuits to
the literal {"prices": []} without touching the network; otherwise one
request is issued whose query parameters repeat ("endpoint_id", eid) once per
supplied id, and its JSON body (or the raised HTTP status error) is returned
verbatim. The first component logs the parameter list of every request
issued. -/
def get_pricing (remote : List (String × String) → Except Nat Json)
    (endpoint_ids : List String) :
    List (List (String × String)) × Except Nat Json :=
  match endpoint_ids with
  | [] => ([], .ok (.obj [("prices", .arr [])]))
  | _ =>
    let params := endpoint_ids.map (fun eid => ("endpoint_id", eid))
    ([params], remote params)

/-- C10: get_pricing with an empty id list returns {"prices": []} immediately
and issues no request; with a non-empty list it issues exactly one request
whose parameters are one repeated endpoint_id entry per supplied id, passing
the remote answer through verbatim. -/
theorem get_pricing_spec (remote : List (String × String) → Except Nat Json)
    (endpoint_ids : List String) :
    (get_pricing remote [] = ([], .ok (.obj [("prices", .arr [])]))) ∧
    (endpoint_ids ≠ [] →
      (get_pricing remote endpoint_ids).1 =
        [endpoint_ids.map (fun eid => ("endpoint_id", eid))] ∧
      (get_pricing remote endpoint_ids).2 =
        remote (endpoint_ids.map (fun eid => ("endpoint_id", eid)))) := by
  refine ⟨rfl, ?_⟩
  intro h
  match endpoint_ids, h with
  | eid :: rest, _ => exact ⟨rfl, rfl⟩

/-- Concrete witness for C10: two endpoint ids produce a single request with
the two repeated endpoint_id parameters. -/
theorem get_pricing_spec_witness :
    (get_pricing (fun _ => .ok .null)
        ["fal-ai/flux/dev", "fal-ai/bark"]).1 =
      [[("endpoint_id", "fal-ai/flux/dev"), ("endpoint_id", "fal-ai/bark")]] :=
  ((get_pricing_spec (fun _ => .ok .null)
      ["fal-ai/flux/dev", "fal-ai/bark"]).2 (by decide)).1.trans (by decide)

end FalMcp
